import Mathlib

/-!
Shallow embedding of the cosipbft ordering service
(`core/ordering/cosipbft/mod.go`): the round-driving main loop, the
leader round (`doRound`, `doPBFT`), the block-notification flow
(`watchBlocks`), roster refresh, `GetProof`, and `Close`.

External collaborators (pool, validation service, collective signing,
RPC transport, PBFT state machine, synchronizer) are modelled as
oracle inputs: each call site receives the result the collaborator
would have produced, and the embedding reproduces the control flow of
the Go source exactly, including error-message wrapping.
-/

/-- Errors are carried as strings, mirroring `xerrors.Errorf` wrapping. -/
abbrev Err := String

/-- `ordering.Event`: the index of the newly committed block. -/
structure Event where
  index : Nat
deriving DecidableEq, Repr

/-- A proposed block as built in `doPBFT`: `types.NewBlock(data,
WithTreeRoot(root), WithIndex(blocks.Len()+1), ...)`. Payload and tree
root are opaque. -/
structure Block where
  index : Nat
  data : Nat
  root : Nat
deriving DecidableEq, Repr

/-- The successive call sites of `Service.doPBFT`, in source order. -/
inductive Phase
  | gather
  | validate
  | newBlock
  | pbftPrepare
  | readRoster
  | signPrepare
  | signCommit
  | propagateDone
  | wakeUp
deriving DecidableEq, Repr

/-- Oracle inputs for one execution of `Service.doPBFT`: the result
each external collaborator returns at its call site. -/
structure PBFTEnv where
  blocksLen : Nat
  txs : List Nat
  ctxErr : Option Err
  prepareDataRes : Except Err (Nat × Nat)
  newBlockErr : Option Err
  pbftPrepareRes : Except Err Nat
  rosterRes : Except Err (List Nat)
  signPrepareRes : Except Err Nat
  signCommitRes : Except Err Nat
  rpcDoneRes : Except Err (List (Except Err Unit))
  wakeUpRes : Except Err Unit

/-- Observable outcome of `Service.doPBFT`: the phases entered in
order, the `Min` field of the `pool.Config` passed to `Gather`, the
block handed to `pbftsm.Prepare` (when one was built), and the return
value. -/
structure PBFTOut where
  trace : List Phase
  gatherMin : Nat
  proposed : Option Block
  res : Except Err Unit

/-- The phase sequence of a fully completed `doPBFT`. -/
def fullPhases : List Phase :=
  [.gather, .validate, .newBlock, .pbftPrepare, .readRoster,
   .signPrepare, .signCommit, .propagateDone, .wakeUp]

/-- `Service.doPBFT` (mod.go lines 401-476). Gathers transactions with
`pool.Config{Min: 1}`, aborts on a done context, prepares the
validated data and tree root, builds the block with index
`blocks.Len()+1`, runs `pbftsm.Prepare`, reads the roster, signs the
prepare message, signs the commit message, propagates the `Done`
message (per-response failures only logged), and wakes up new
participants. Every failing step returns its wrapped error without
running later steps. -/
def doPBFT (env : PBFTEnv) : PBFTOut :=
  match env.ctxErr with
  | some e => ⟨[.gather], 1, none, .error e⟩
  | none =>
    match env.prepareDataRes with
    | .error e =>
        ⟨[.gather, .validate], 1, none, .error ("failed to prepare data: " ++ e)⟩
    | .ok (data, root) =>
      match env.newBlockErr with
      | some e =>
          ⟨[.gather, .validate, .newBlock], 1, none,
           .error ("creating block failed: " ++ e)⟩
      | none =>
        let block : Block := ⟨env.blocksLen + 1, data, root⟩
        match env.pbftPrepareRes with
        | .error e =>
            ⟨[.gather, .validate, .newBlock, .pbftPrepare], 1, some block,
             .error ("pbft prepare failed: " ++ e)⟩
        | .ok _ =>
          match env.rosterRes with
          | .error e =>
              ⟨[.gather, .validate, .newBlock, .pbftPrepare, .readRoster], 1,
               some block, .error ("read roster failed: " ++ e)⟩
          | .ok _ =>
            match env.signPrepareRes with
            | .error e =>
                ⟨[.gather, .validate, .newBlock, .pbftPrepare, .readRoster,
                  .signPrepare], 1, some block,
                 .error ("prepare phase failed: " ++ e)⟩
            | .ok _ =>
              match env.signCommitRes with
              | .error e =>
                  ⟨[.gather, .validate, .newBlock, .pbftPrepare, .readRoster,
                    .signPrepare, .signCommit], 1, some block,
                   .error ("commit phase failed: " ++ e)⟩
              | .ok _ =>
                match env.rpcDoneRes with
                | .error e =>
                    ⟨[.gather, .validate, .newBlock, .pbftPrepare, .readRoster,
                      .signPrepare, .signCommit, .propagateDone], 1, some block,
                     .error ("rpc failed: " ++ e)⟩
                | .ok _ =>
                  match env.wakeUpRes with
                  | .error e =>
                      ⟨fullPhases, 1, some block,
                       .error ("wake up failed: " ++ e)⟩
                  | .ok _ => ⟨fullPhases, 1, some block, .ok ()⟩

theorem fullPhases_sign_order :
    fullPhases.indexOf Phase.signPrepare < fullPhases.indexOf Phase.signCommit ∧
    fullPhases.indexOf Phase.signCommit < fullPhases.indexOf Phase.propagateDone := by
  decide

/-- C2: Within every leader round that completes, prepare-phase
signing strictly precedes commit-phase signing, which strictly
precedes the `Done` propagation; a failing phase prevents every later
phase. -/
theorem doPBFT_phase_order (env : PBFTEnv) (e : Err) :
    ((doPBFT env).res = .ok () →
      (doPBFT env).trace = fullPhases ∧
      fullPhases.indexOf Phase.signPrepare < fullPhases.indexOf Phase.signCommit ∧
      fullPhases.indexOf Phase.signCommit < fullPhases.indexOf Phase.propagateDone) ∧
    (env.signPrepareRes = .error e →
      Phase.signCommit ∉ (doPBFT env).trace ∧
      Phase.propagateDone ∉ (doPBFT env).trace) ∧
    (env.signCommitRes = .error e →
      Phase.propagateDone ∉ (doPBFT env).trace) ∧
    (env.prepareDataRes = .error e →
      Phase.signPrepare ∉ (doPBFT env).trace ∧
      Phase.signCommit ∉ (doPBFT env).trace ∧
      Phase.propagateDone ∉ (doPBFT env).trace) := by
  obtain ⟨bl, txs, ctxe, pd, nb, pr, ro, sp, sc, rd, wu⟩ := env
  cases ctxe with
  | some e1 => simp [doPBFT, fullPhases]
  | none =>
  rcases pd with e1 | ⟨d, r⟩
  · simp [doPBFT, fullPhases]
  cases nb with
  | some e1 => simp [doPBFT, fullPhases]
  | none =>
  rcases pr with e1 | rid
  · simp [doPBFT, fullPhases]
  rcases ro with e1 | ros
  · simp [doPBFT, fullPhases]
  rcases sp with e1 | s1
  · simp [doPBFT, fullPhases]
  rcases sc with e1 | s2
  · simp [doPBFT, fullPhases]
  rcases rd with e1 | resps
  · simp [doPBFT, fullPhases]
  rcases wu with e1 | u
  · simp [doPBFT, fullPhases]
  · exact ⟨fun _ => ⟨rfl, fullPhases_sign_order.1, fullPhases_sign_order.2⟩,
      by simp [doPBFT], by simp [doPBFT], by simp [doPBFT]⟩

/-- Witness for C2 at a concrete all-successful environment. -/
def envAllOk : PBFTEnv :=
  ⟨5, [7], none, .ok (1, 2), none, .ok 3, .ok [0, 1], .ok 4, .ok 5,
   .ok [.ok (), .error "late peer"], .ok ()⟩

theorem doPBFT_phase_order_witness :
    (doPBFT envAllOk).trace = fullPhases ∧
    fullPhases.indexOf Phase.signPrepare < fullPhases.indexOf Phase.signCommit := by
  have h := doPBFT_phase_order envAllOk "e"
  have h1 := h.1 (by rfl)
  exact ⟨h1.1, h1.2.1⟩

/-- C4: whenever `doPBFT` hands a block to `pbftsm.Prepare`, its index
is the current chain length plus one. -/
theorem doPBFT_block_index (env : PBFTEnv) (b : Block) :
    (doPBFT env).proposed = some b → b.index = env.blocksLen + 1 := by
  obtain ⟨bl, txs, ctxe, pd, nb, pr, ro, sp, sc, rd, wu⟩ := env
  cases ctxe with
  | some e1 => simp [doPBFT]
  | none =>
  rcases pd with e1 | ⟨d, r⟩
  · simp [doPBFT]
  cases nb with
  | some e1 => simp [doPBFT]
  | none =>
  rcases pr with e1 | rid
  · rintro h
    simp only [doPBFT, Option.some.injEq] at h
    subst h
    rfl
  rcases ro with e1 | ros
  · rintro h
    simp only [doPBFT, Option.some.injEq] at h
    subst h
    rfl
  rcases sp with e1 | s1
  · rintro h
    simp only [doPBFT, Option.some.injEq] at h
    subst h
    rfl
  rcases sc with e1 | s2
  · rintro h
    simp only [doPBFT, Option.some.injEq] at h
    subst h
    rfl
  rcases rd with e1 | resps
  · rintro h
    simp only [doPBFT, Option.some.injEq] at h
    subst h
    rfl
  rcases wu with e1 | u
  · rintro h
    simp only [doPBFT, Option.some.injEq] at h
    subst h
    rfl
  · rintro h
    simp only [doPBFT, Option.some.injEq] at h
    subst h
    rfl

theorem doPBFT_block_index_witness :
    (⟨6, 1, 2⟩ : Block).index = envAllOk.blocksLen + 1 :=
  doPBFT_block_index envAllOk ⟨6, 1, 2⟩ (by rfl)

/-- C8: `doPBFT` gathers transactions with a minimum of 1 and, when
the round context is done after gathering, returns the context error
without attempting validation or any PBFT phase. -/
theorem doPBFT_gather_cancellation (env : PBFTEnv) (e : Err) :
    (doPBFT env).gatherMin = 1 ∧
    (env.ctxErr = some e →
      (doPBFT env).res = .error e ∧
      Phase.validate ∉ (doPBFT env).trace ∧
      Phase.pbftPrepare ∉ (doPBFT env).trace ∧
      Phase.signPrepare ∉ (doPBFT env).trace) := by
  obtain ⟨bl, txs, ctxe, pd, nb, pr, ro, sp, sc, rd, wu⟩ := env
  cases ctxe <;> rcases pd with _ | ⟨d, r⟩ <;> cases nb <;> cases pr <;>
    cases ro <;> cases sp <;> cases sc <;> cases rd <;> cases wu <;>
    simp_all [doPBFT, fullPhases]

theorem doPBFT_gather_cancellation_witness :
    (doPBFT { envAllOk with ctxErr := some "context canceled" }).res =
      .error "context canceled" :=
  ((doPBFT_gather_cancellation { envAllOk with ctxErr := some "context canceled" }
    "context canceled").2 (by rfl)).1

/-- PBFT machine states as observed by the wait of the round loop for
`InitialState` (the machine itself lives in the `pbft` package). -/
inductive PbftState
  | initial
  | prepared
  | committed
  | viewchange
deriving DecidableEq, Repr

/-- `pbft.View` as used by `doRound`: an identifier and the proposed
next leader. -/
structure View where
  id : Nat
  leader : Nat
deriving DecidableEq, Repr

/-- Observable steps of the timeout branch of `doRound`. -/
inductive VCStep
  | expire
  | broadcastView (v : View)
  | logWarn (e : Err)
  | waitInitial
deriving DecidableEq, Repr

/-- The errors carried by the failed responses of an RPC fan-in. -/
def respErrors (rs : List (Except Err Unit)) : List Err :=
  rs.filterMap fun r =>
    match r with
    | .error e => some e
    | .ok _ => none

/-- Oracle inputs for the timeout branch of `doRound`: the result of
`pbftsm.Expire`, the RPC view broadcast and its per-peer responses,
and the state sequence delivered by `pbftsm.Watch` after the initial
`GetState` read. -/
structure ViewChangeEnv where
  expireRes : Except Err View
  rpcViewRes : Except Err (List (Except Err Unit))
  initState : PbftState
  watchStates : List PbftState

/-- The wait loop of `doRound` (mod.go lines 353-362): reads states
until `InitialState` is seen; a closed channel before that fails the
view-change. -/
def awaitInitial : PbftState → List PbftState → Except Err Unit
  | .initial, _ => .ok ()
  | _, [] => .error "viewchange failed"
  | _, st :: rest => awaitInitial st rest

/-- The timeout branch of `doRound` (mod.go lines 327-366): `Expire`,
then broadcast of the resulting `View`, per-response failures logged
as warnings, then the wait for `InitialState`. -/
def timeoutBranch (env : ViewChangeEnv) : List VCStep × Except Err Unit :=
  match env.expireRes with
  | .error e => ([.expire], .error ("pbft expire failed: " ++ e))
  | .ok view =>
    match env.rpcViewRes with
    | .error e => ([.expire, .broadcastView view], .error ("rpc failed: " ++ e))
    | .ok resps =>
      ([.expire, .broadcastView view] ++ (respErrors resps).map .logWarn
         ++ [.waitInitial],
       awaitInitial env.initState env.watchStates)

/-- The three select arms of the non-leader wait in `doRound` (mod.go
lines 326-372). -/
inductive WaitEvent
  | timeout (env : ViewChangeEnv)
  | blockEvent
  | closing

/-- What one pass of the non-leader select does to the round. -/
inductive RoundStep
  | recheck
  | roundEnd
  | roundFail (e : Err)
deriving DecidableEq, Repr

/-- One pass of the non-leader select of `doRound`: a block event or
the closing signal ends the round; the timeout runs the view-change
branch, and only a successful view-change loops back to re-check
leadership. -/
def nonLeaderSelect : WaitEvent → List VCStep × RoundStep
  | .timeout env =>
    let out := timeoutBranch env
    (out.1,
     match out.2 with
     | .ok _ => .recheck
     | .error e => .roundFail e)
  | .blockEvent => ([], .roundEnd)
  | .closing => ([], .roundEnd)

/-- C3: on a non-leader round timeout, the node calls `Expire`,
broadcasts the resulting `View`, logs (only) the per-peer broadcast
failures, then waits for the PBFT state to return to Initial: it
re-checks leadership exactly when that wait succeeds, and the outcome
does not depend on the per-peer responses. -/
theorem doRound_viewchange (env : ViewChangeEnv) (v : View)
    (resps : List (Except Err Unit))
    (h1 : env.expireRes = .ok v) (h2 : env.rpcViewRes = .ok resps) :
    (nonLeaderSelect (.timeout env)).1 =
      [.expire, .broadcastView v] ++ (respErrors resps).map VCStep.logWarn
        ++ [.waitInitial] ∧
    (awaitInitial env.initState env.watchStates = .ok () →
      (nonLeaderSelect (.timeout env)).2 = .recheck) ∧
    (∀ e, awaitInitial env.initState env.watchStates = .error e →
      (nonLeaderSelect (.timeout env)).2 = .roundFail e) := by
  obtain ⟨er, rr, ist, ws⟩ := env
  simp only at h1 h2
  subst h1
  subst h2
  refine ⟨rfl, ?_, ?_⟩
  · intro h
    simp [nonLeaderSelect, timeoutBranch, h]
  · intro e h
    simp [nonLeaderSelect, timeoutBranch, h]

/-- Witness for C3: a concrete timeout with one failed peer response;
the failure is logged, and the round loops back to re-check
leadership. -/
theorem doRound_viewchange_witness :
    (nonLeaderSelect (.timeout ⟨.ok ⟨1, 2⟩, .ok [.ok (), .error "peer down"],
        .prepared, [.prepared, .initial]⟩)).1 =
      [.expire, .broadcastView ⟨1, 2⟩, .logWarn "peer down", .waitInitial] ∧
    (nonLeaderSelect (.timeout ⟨.ok ⟨1, 2⟩, .ok [.ok (), .error "peer down"],
        .prepared, [.prepared, .initial]⟩)).2 = .recheck := by
  have h := doRound_viewchange
    ⟨.ok ⟨1, 2⟩, .ok [.ok (), .error "peer down"], .prepared, [.prepared, .initial]⟩
    ⟨1, 2⟩ [.ok (), .error "peer down"] rfl rfl
  exact ⟨h.1, h.2.1 rfl⟩

/-- Oracle inputs for the leader part of `doRound`: the roster length,
the result of the synchronizer, and the inputs of the nested `doPBFT`. -/
structure LeaderEnv where
  rosterLen : Nat
  syncRes : Except Err Unit
  pbftEnv : PBFTEnv

/-- Observable outcome of the leader part of `doRound`: the `MinHard`
value passed to `sync.Sync`, the nested `doPBFT` outcome when PBFT was
reached, and the round result. -/
structure LeaderOut where
  syncMinHard : Nat
  pbftOut : Option PBFTOut
  res : Except Err Unit

/-- The leader path of `Service.doRound` (mod.go lines 375-398): run
`sync.Sync(ctx, roster, blocksync.Config{MinHard: roster.Len()})`; a
sync failure is round-fatal; otherwise run `doPBFT` and wrap its
error. -/
def doRoundLeader (env : LeaderEnv) : LeaderOut :=
  match env.syncRes with
  | .error e => ⟨env.rosterLen, none, .error ("sync failed: " ++ e)⟩
  | .ok _ =>
    let out := doPBFT env.pbftEnv
    ⟨env.rosterLen, some out,
     match out.res with
     | .error e => .error ("pbft failed: " ++ e)
     | .ok _ => .ok ()⟩

/-- C6: every leader round runs the synchronizer with a hard minimum
equal to the full roster size, and a synchronization failure aborts
the round before PBFT starts. -/
theorem doRound_sync_full_roster (env : LeaderEnv) :
    (doRoundLeader env).syncMinHard = env.rosterLen ∧
    (∀ e, env.syncRes = .error e →
      (doRoundLeader env).res = .error ("sync failed: " ++ e) ∧
      (doRoundLeader env).pbftOut = none) := by
  obtain ⟨n, sy, pe⟩ := env
  rcases sy with e1 | u <;> simp [doRoundLeader]

/-- Witness for C6: a concrete failing synchronization is round-fatal
and PBFT never starts. -/
theorem doRound_sync_full_roster_witness :
    (doRoundLeader ⟨4, .error "sync timeout", envAllOk⟩).res =
      .error ("sync failed: " ++ "sync timeout") ∧
    (doRoundLeader ⟨4, .error "sync timeout", envAllOk⟩).pbftOut = none :=
  (doRound_sync_full_roster ⟨4, .error "sync timeout", envAllOk⟩).2
    "sync timeout" rfl

/-- How the top-level control flow of the main loop ends. -/
inductive MainOutcome
  | exitOk
  | exitErr (e : Err)
deriving DecidableEq, Repr

/-- One iteration of the for-loop of `Service.main` (mod.go lines
293-308): a ready closing signal exits cleanly; otherwise the round
runs, and a round error terminates the loop with the wrapped error;
`none` means the loop continues with the next round. -/
def mainIter (closingReady : Bool) (roundRes : Except Err Unit) :
    Option MainOutcome :=
  if closingReady then some .exitOk
  else
    match roundRes with
    | .error e => some (.exitErr ("round failed: " ++ e))
    | .ok _ => none

/-- The for-loop of `Service.main` over a finite script of iterations,
each giving the closing-signal state and the round result; `none`
means the loop is still running after the script. -/
def mainLoop : List (Bool × Except Err Unit) → Option MainOutcome
  | [] => none
  | (cl, r) :: rest =>
    match mainIter cl r with
    | some o => some o
    | none => mainLoop rest

/-- Which of `s.started` and `s.closing` fires first in the opening
select of `Service.main` (mod.go lines 276-282). -/
inductive StartSignal
  | genesisSet
  | closingFirst

/-- `Service.main` (mod.go lines 275-309): wait for the genesis signal
(closing first exits cleanly), run the initial roster refresh (a
failure is fatal), then enter the round loop. -/
def mainBody (sig : StartSignal) (refreshRes : Except Err Unit)
    (script : List (Bool × Except Err Unit)) : Option MainOutcome :=
  match sig with
  | .closingFirst => some .exitOk
  | .genesisSet =>
    match refreshRes with
    | .error e => some (.exitErr ("refreshing roster: " ++ e))
    | .ok _ => mainLoop script

/-- The goroutine wrapping `main` in `NewService` (mod.go lines
158-165): logs a main-loop failure, and closes `s.closed` on every
exit path. Returns the log entries and whether `closed` was closed. -/
def mainGoroutine (mainRes : Except Err Unit) : List Err × Bool :=
  match mainRes with
  | .error e => (["main loop failed: " ++ e], true)
  | .ok _ => ([], true)

/-- `Service.refreshRoster` (mod.go lines 261-273): read the current
roster, then hand it to the transaction pool; each failure is wrapped
and returned. -/
def refreshRoster (rosterRes : Except Err (List Nat))
    (setPlayersRes : List Nat → Except Err Unit) : Except Err Unit :=
  match rosterRes with
  | .error e => .error ("reading roster: " ++ e)
  | .ok r =>
    match setPlayersRes r with
    | .error e => .error ("updating tx pool: " ++ e)
    | .ok _ => .ok ()

/-- C1 counterexample: an ordinary round failure (a failed prepare
phase) terminates the main loop at once — the next scripted round,
which would succeed, is never reached, so the loop does not proceed to
the next round. -/
theorem main_counterexample :
    mainLoop [(false, .error "pbft failed: prepare phase failed: link closed"),
              (false, .ok ())] =
      some (.exitErr ("round failed: " ++
        "pbft failed: prepare phase failed: link closed")) := by
  rfl

/-- C1 (amended): the closing signal exits the main loop cleanly; any
`doRound` error terminates the loop with a `round failed` error, which
the service goroutine logs while closing `s.closed`; the loop proceeds
to the next round only when `doRound` returns nil. -/
theorem main_round_error_terminates (r : Except Err Unit) (e : Err)
    (script : List (Bool × Except Err Unit)) :
    mainIter true r = some .exitOk ∧
    mainIter false (.error e) = some (.exitErr ("round failed: " ++ e)) ∧
    mainIter false (.ok ()) = none ∧
    mainBody .genesisSet (.ok ()) ((false, .error e) :: script) =
      some (.exitErr ("round failed: " ++ e)) ∧
    mainGoroutine (.error ("round failed: " ++ e)) =
      (["main loop failed: " ++ ("round failed: " ++ e)], true) := by
  cases r <;>
    simp [mainIter, mainBody, mainLoop, mainGoroutine]

/-- A link drained from the block store feed: the index of the new block
and the transactions of its result set. -/
structure LinkInfo where
  toIndex : Nat
  txs : List Nat

/-- The state touched by one pass of `watchBlocks`: the transaction
pool contents, the single-slot internal notification channel
(`s.events`, capacity 1), and the queue of each registered external
watcher. -/
structure WatchState where
  pool : List Nat
  eventsSlot : Option Event
  watchers : List (List Event)

/-- One iteration of the for-loop of `Service.watchBlocks` (mod.go
lines 233-258): remove the transactions of the link from the pool, refresh
the roster (a failure is only logged), offer `Event{index}` to the
internal slot without blocking (dropped when the slot is occupied),
and notify every watcher. The watcher fan-out (`s.watcher.Notify`) is
modelled from the spec: the watcher registry is not part of this
package; per the spec it delivers the event to every registered
watcher, each through the blocking channel send of `observer.NotifyCallback`,
so no event is dropped. -/
def watchBlocksStep (st : WatchState) (link : LinkInfo)
    (refreshRes : Except Err Unit) : WatchState × List Err :=
  let pool1 := st.pool.filter fun t => !(link.txs.contains t)
  let logs :=
    match refreshRes with
    | .error e => ["roster refresh failed: " ++ e]
    | .ok _ => []
  let event : Event := ⟨link.toIndex⟩
  let slot :=
    match st.eventsSlot with
    | none => some event
    | some old => some old
  (⟨pool1, slot, st.watchers.map fun q => q ++ [event]⟩, logs)

/-- C5: the event of each drained link is offered to the internal wakeup
slot non-blockingly — stored when the slot is free, dropped (the
pending event kept) when the previous notification is unconsumed — and
is appended to the queue of every registered watcher, never dropped. -/
theorem watchBlocks_event_delivery (st : WatchState) (link : LinkInfo)
    (refreshRes : Except Err Unit) :
    (watchBlocksStep st link refreshRes).1.eventsSlot =
      some (st.eventsSlot.getD ⟨link.toIndex⟩) ∧
    (watchBlocksStep st link refreshRes).1.watchers =
      st.watchers.map fun q => q ++ [⟨link.toIndex⟩] := by
  cases h : st.eventsSlot <;> simp [watchBlocksStep, h]

/-- C7 counterexample: a failing `refreshRoster` during the startup of
`main` (the roster cannot be read) is fatal — `main` returns the
wrapped error and the control flow of the service terminates instead of
continuing with the previous roster. -/
theorem refreshRoster_counterexample :
    mainBody .genesisSet
      (refreshRoster (.error "no roster in store") (fun _ => .ok ()))
      [(false, .ok ())] =
      some (.exitErr ("refreshing roster: " ++
        ("reading roster: " ++ "no roster in store"))) := by
  rfl

/-- C7 (amended): a `refreshRoster` failure during the block
notification flow is only logged (the event is still published and the
flow continues), but the initial `refreshRoster` in `main` is fatal:
its error terminates the control flow of the service. -/
theorem refreshRoster_warning_scope (st : WatchState) (link : LinkInfo)
    (e : Err) (script : List (Bool × Except Err Unit)) :
    (watchBlocksStep st link (.error e)).2 = ["roster refresh failed: " ++ e] ∧
    (watchBlocksStep st link (.error e)).1.watchers =
      st.watchers.map (fun q => q ++ [⟨link.toIndex⟩]) ∧
    mainBody .genesisSet (.error e) script =
      some (.exitErr ("refreshing roster: " ++ e)) := by
  refine ⟨rfl, ?_, rfl⟩
  cases h : st.eventsSlot <;> simp [watchBlocksStep, h]

/-- `Service.GetProof` (mod.go lines 195-197): the body is
`return nil, nil` — no store is consulted and no error is produced. -/
def GetProof (_key : List Nat) : Option Nat × Option Err :=
  (none, none)

/-- Second definition for the refinement check of C9, following the
words of the spec: `GetProof(key) → proof, error` performs a point lookup
of the key against the latest committed state, delegated to the
external store. -/
def getProofSpecDelegate (store : List Nat → Option Nat × Option Err)
    (key : List Nat) : Option Nat × Option Err :=
  store key

/-- C9 counterexample: against a store whose point lookup of key `[1]`
yields a proof, the implementation still returns `(nil, nil)` — it
returns neither a proof nor an error and does not delegate to the
store. -/
theorem GetProof_counterexample :
    GetProof [1] = (none, none) ∧
    getProofSpecDelegate (fun _ => (some 7, none)) [1] = (some 7, none) ∧
    GetProof [1] ≠ getProofSpecDelegate (fun _ => (some 7, none)) [1] := by
  refine ⟨rfl, rfl, ?_⟩
  simp [GetProof, getProofSpecDelegate]

/-- C9 (amended): `GetProof` is an unimplemented stub: for every key
it returns no proof and no error, consulting no store. -/
theorem GetProof_stub (key : List Nat) :
    GetProof key = (none, none) := by
  rfl

/-- In Go, `close(ch)` on a channel that is already closed panics;
otherwise the channel becomes closed. -/
def closeChan (alreadyClosed : Bool) : Except Err Bool :=
  if alreadyClosed then .error "close of closed channel" else .ok true

/-- The closed-state of the two shutdown channels of the service. -/
structure SvcChans where
  closingClosed : Bool
  closedClosed : Bool
deriving DecidableEq, Repr

/-- `Service.Close` (mod.go lines 216-221): `close(s.closing)` — a
panic if `closing` is already closed — then `<-s.closed`, which
returns once `s.closed` is closed. -/
def serviceClose (s : SvcChans) : Except Err SvcChans :=
  match closeChan s.closingClosed with
  | .error e => .error e
  | .ok b => .ok ⟨b, s.closedClosed⟩

/-- C10: a second `Close` panics by closing the already-closed
`closing` channel, while a first `Close` does not panic and its wait
terminates: the main goroutine closes `s.closed` on every exit path —
error or not — and the main loop exits as soon as it observes the
closing signal. -/
theorem close_twice_panics (r : Except Err Unit) (b : Bool) :
    serviceClose ⟨true, b⟩ = .error "close of closed channel" ∧
    serviceClose ⟨false, b⟩ = .ok ⟨true, b⟩ ∧
    (mainGoroutine r).2 = true ∧
    mainIter true r = some .exitOk := by
  cases r <;> cases b <;>
    simp [serviceClose, closeChan, mainGoroutine, mainIter]
